import Mathlib

/-!
Verification development for the candle-based technical-analysis core of the
`agentic-fo-backend` repository.

The Python source is shallowly embedded: prices, volumes and timestamps are
modelled as rationals (`ℚ`, mirrors the exact decimal arithmetic the code
intends), per-instrument mutable detector state becomes explicit state
records, dictionaries keyed by instrument name become functions
`String → Option _`, and the wall clock (`datetime.now()`) is passed as an
explicit input wherever the code reads it.  Python list slices `lst[-n:]`
and Python `int(x)` truncation are modelled by dedicated helpers below so
that every definition can be diffed line by line against its source.
-/

/-- One OHLCV candle, `{timestamp, open, high, low, close, volume}`.
Timestamps are seconds (rational) since an arbitrary epoch. -/
structure Candle where
  ts : ℚ
  open_ : ℚ
  high : ℚ
  low : ℚ
  close : ℚ
  volume : ℚ
deriving DecidableEq

/-- Python `lst[-n:]`: the most recent `n` entries; for `n = 0` Python
returns the whole list (`lst[-0:] = lst[0:]`). -/
def pyLastN (n : ℕ) (l : List α) : List α :=
  if n = 0 then l else l.drop (l.length - n)

/-- The history-trimming idiom `if len(h) > cap: h = h[-cap:]`. -/
def pyTrim (cap : ℕ) (l : List α) : List α :=
  if l.length > cap then l.drop (l.length - cap) else l

/-- Python `min(pairs, key=first)` keeps the first entry with minimal key. -/
def pyMinBy (f : α → ℚ) : List α → Option α
  | [] => none
  | x :: xs =>
    match pyMinBy f xs with
    | none => some x
    | some m => if f m < f x then some m else some x

/-- Python `max(pairs, key=first)` keeps the first entry with maximal key. -/
def pyMaxBy (f : α → ℚ) : List α → Option α
  | [] => none
  | x :: xs =>
    match pyMaxBy f xs with
    | none => some x
    | some m => if f x < f m then some m else some x

/-- Python `max(list)` over the values of a nonempty list (0 if empty,
which never happens at the guarded call sites). -/
def pyMax (l : List ℚ) : ℚ := l.foldl max (l.headD 0)

/-- Python `min(list)` over the values of a nonempty list. -/
def pyMin (l : List ℚ) : ℚ := l.foldl min (l.headD 0)

/-- `SupportLevel` dataclass of `breakdown_detector.py`. -/
structure SupportLevel where
  price : ℚ
  tolerance : ℚ
  min_touches : ℕ
  consolidation_periods : ℕ
  is_active : Bool
deriving DecidableEq

/-- `BreakdownAlert` dataclass of `breakdown_detector.py`.
`breakdown_time` is the wall-clock reading `datetime.now()` taken when the
alert is built. -/
structure BreakdownAlert where
  instrument : String
  strike_price : ℚ
  breakdown_price : ℚ
  support_level : ℚ
  breakdown_time : ℚ
  volume : ℚ
  volume_increase : ℚ
  candle_body_ratio : ℚ
deriving DecidableEq

/-- State of `BreakdownDetector` restricted to one instrument: its list of
registered support levels (registration order) and its candle history.
The per-instrument dictionaries of the class are independent, so one
instrument's slice is a faithful model of that instrument's behaviour. -/
structure BDState where
  supportLevels : List SupportLevel
  history : List Candle
deriving DecidableEq

/-- `support.price * (1 - support.tolerance / 100)`, the lower bound used
both by `_check_breakdown` and `_is_decisive_breakdown`. -/
def supportLowerBound (s : SupportLevel) : ℚ :=
  s.price * (1 - s.tolerance / 100)

/-- The loop of `_is_decisive_breakdown` counting candles whose close is
below the support lower bound. -/
def countBelowSupport (s : SupportLevel) (l : List Candle) : ℕ :=
  (l.filter (fun c => c.close < supportLowerBound s)).length

/-- `int(support.consolidation_periods * 0.6)`: multiplying a nonnegative
integer by 0.6 and truncating toward zero is `⌊3·p/5⌋`. -/
def breakdownThreshold (p : ℕ) : ℕ := 3 * p / 5

/-- `BreakdownDetector._is_decisive_breakdown`. -/
def is_decisive_breakdown (recent : List Candle) (s : SupportLevel) : Bool :=
  if recent.length < s.consolidation_periods then false
  else breakdownThreshold s.consolidation_periods ≤ countBelowSupport s recent

/-- `BreakdownDetector._check_breakdown`.  `hist` is the (already updated)
per-instrument price history, `c` the current candle, `now` the wall
clock. -/
def check_breakdown (instrument : String) (hist : List Candle)
    (s : SupportLevel) (c : Candle) (now : ℚ) : Option BreakdownAlert :=
  let current_price := c.close
  let support_lower := supportLowerBound s
  if current_price < support_lower then
    let recent_candles := pyLastN s.consolidation_periods hist
    if is_decisive_breakdown recent_candles s then
      let candle_body := |c.close - c.open_|
      let candle_range := c.high - c.low
      let body_ratio := if candle_range > 0 then candle_body / candle_range else 0
      let avg_volume :=
        ((recent_candles.dropLast.map Candle.volume).sum) /
          (max (recent_candles.length - 1) 1 : ℕ)
      let volume_increase :=
        if avg_volume > 0 then (c.volume - avg_volume) / avg_volume * 100 else 0
      some { instrument := instrument
             strike_price := s.price
             breakdown_price := current_price
             support_level := s.price
             breakdown_time := now
             volume := c.volume
             volume_increase := volume_increase
             candle_body_ratio := body_ratio }
    else none
  else none

/-- `BreakdownDetector.update_price`: append the candle, trim the history
to 100 entries, then scan the support levels in registration order and
return the first breakdown found among the active ones. -/
def update_price (instrument : String) (st : BDState) (c : Candle) (now : ℚ) :
    Option BreakdownAlert × BDState :=
  let hist := pyTrim 100 (st.history ++ [c])
  let alert := st.supportLevels.findSome? fun s =>
    if s.is_active then check_breakdown instrument hist s c now else none
  (alert, { st with history := hist })

/-- One ingestion step of the breakdown detector: candle plus the wall
clock observed while processing it. -/
def bd_step (instrument : String) (st : BDState) (ct : Candle × ℚ) : BDState :=
  (update_price instrument st ct.1 ct.2).2

/-- The stream of results (`None` or an alert) produced by feeding the
candles, with their wall-clock readings, one at a time. -/
def bd_events (instrument : String) (st : BDState) :
    List (Candle × ℚ) → List (Option BreakdownAlert)
  | [] => []
  | ct :: rest =>
    (update_price instrument st ct.1 ct.2).1 ::
      bd_events instrument (bd_step instrument st ct) rest

/-- A `BreakdownAlert` with its wall-clock field scrubbed: all fields that
are derived from the candle data, none from the clock. -/
def eraseBDTime (a : BreakdownAlert) : BreakdownAlert :=
  { a with breakdown_time := 0 }

/-- `BreakoutPhase` enum of `breakout_failure_detector.py`. -/
inductive BreakoutPhase where
  | CONSOLIDATION
  | BREAKOUT_UP
  | BREAKOUT_DOWN
  | BREAKOUT_FAILURE_UP
  | BREAKOUT_FAILURE_DOWN
  | SWING_LOW_BROKEN
  | SWING_HIGH_BROKEN
deriving DecidableEq

/-- `RangeLevel` dataclass. -/
structure RangeLevel where
  upper_bound : ℚ
  lower_bound : ℚ
  start_time : ℚ
  end_time : Option ℚ
  touch_count : ℕ
deriving DecidableEq

/-- `SwingLow` dataclass. -/
structure SwingLow where
  price : ℚ
  time : ℚ
  is_broken : Bool
deriving DecidableEq

/-- `SwingHigh` dataclass. -/
structure SwingHigh where
  price : ℚ
  time : ℚ
  is_broken : Bool
deriving DecidableEq

/-- `BreakoutFailureAlert` dataclass. -/
structure BreakoutFailureAlert where
  instrument : String
  range_upper : ℚ
  range_lower : ℚ
  breakout_price : ℚ
  breakdown_price : ℚ
  previous_swing_low : ℚ
  previous_swing_high : ℚ
  swing_low_broken : Bool
  swing_high_broken : Bool
  breakdown_time : ℚ
  candles_for_failure : ℕ
  volume_spike : ℚ
  direction : String
deriving DecidableEq

/-- State of `BreakoutFailureDetector` restricted to one instrument: one
entry of each per-instrument dictionary of the class (`Option` encodes
key absence where the code tests membership). -/
structure BFState where
  rangeLevel : Option RangeLevel
  swingLow : Option SwingLow
  swingHigh : Option SwingHigh
  breakoutPrice : Option ℚ
  breakoutDirection : Option String
  history : List Candle
  failureHistory : List BreakoutFailureAlert
  phase : Option BreakoutPhase
deriving DecidableEq

/-- The detector's initial state for an instrument that has never been
seen: no dictionary holds a key for it. -/
def bfEmpty : BFState :=
  { rangeLevel := none, swingLow := none, swingHigh := none,
    breakoutPrice := none, breakoutDirection := none,
    history := [], failureHistory := [], phase := none }

/-- `(range_width / avg_price) * 100 if avg_price > 0 else 0` computed over
a candle window exactly as in `detect_range` (lines 104-113). -/
def rangeWidthPct (recent : List Candle) : ℚ :=
  let range_upper := pyMax (recent.map Candle.high)
  let range_lower := pyMin (recent.map Candle.low)
  let range_width := range_upper - range_lower
  let avg_price := (range_upper + range_lower) / 2
  if avg_price > 0 then range_width / avg_price * 100 else 0

/-- `BreakoutFailureDetector.detect_range`. -/
def detect_range (price_data : List Candle)
    (lookback_periods : ℕ) (min_range_candles : ℕ) : Option RangeLevel :=
  if price_data.length < lookback_periods then none
  else
    let recent := pyLastN lookback_periods price_data
    let range_upper := pyMax (recent.map Candle.high)
    let range_lower := pyMin (recent.map Candle.low)
    let range_percentage := rangeWidthPct recent
    if range_percentage < 2 ∧ min_range_candles ≤ recent.length then
      let touch_count :=
        (recent.filter fun c =>
          range_upper * (99 / 100) ≤ c.high ∨ c.low ≤ range_lower * (101 / 100)).length
      some { upper_bound := range_upper
             lower_bound := range_lower
             start_time := (recent.headD ⟨0, 0, 0, 0, 0, 0⟩).ts
             end_time := none
             touch_count := touch_count }
    else none

/-- `BreakoutFailureDetector.detect_breakout`: returns whether a breakout
fired together with the state after its mutations (the stored range's
`end_time`, the breakout price/direction and the phase). -/
def detect_breakout (c : Candle) (r : RangeLevel) (st : BFState) :
    Bool × BFState :=
  if c.high > r.upper_bound then
    (true, { st with rangeLevel := some { r with end_time := some c.ts },
                     breakoutPrice := some c.close,
                     breakoutDirection := some "up",
                     phase := some .BREAKOUT_UP })
  else if c.low < r.lower_bound then
    (true, { st with rangeLevel := some { r with end_time := some c.ts },
                     breakoutPrice := some c.close,
                     breakoutDirection := some "down",
                     phase := some .BREAKOUT_DOWN })
  else (false, st)

/-- `BreakoutFailureDetector.detect_breakdown_after_breakout`. -/
def detect_breakdown_after_breakout (instrument : String) (c : Candle)
    (r : RangeLevel) (st : BFState) : Option BreakoutFailureAlert × BFState :=
  match st.breakoutPrice with
  | none => (none, st)
  | some breakout_price =>
    let close_price := c.close
    let direction := st.breakoutDirection.getD "up"
    let is_failure : Bool :=
      if direction = "up" ∧ close_price < r.upper_bound then true
      else if direction = "down" ∧ close_price > r.lower_bound then true
      else false
    if is_failure then
      let r' : RangeLevel := { r with end_time := some c.ts }
      let candles_for_failure := st.history.length
      let recent_candles := st.history
      let volume_spike :=
        if recent_candles.length > 1 then
          let avg_volume :=
            (recent_candles.dropLast.map Candle.volume).sum /
              ((recent_candles.length - 1 : ℕ) : ℚ)
          if avg_volume > 0 then (c.volume - avg_volume) / avg_volume * 100 else 0
        else 0
      let swingCheck : Bool × ℚ × Bool × ℚ × BFState :=
        if direction = "up" then
          match st.swingLow with
          | some swing_low =>
            if close_price < swing_low.price then
              (true, swing_low.price, false, 0,
               { st with swingLow := some { swing_low with is_broken := true } })
            else (false, 0, false, 0, st)
          | none => (false, 0, false, 0, st)
        else if direction = "down" then
          match st.swingHigh with
          | some swing_high =>
            if close_price > swing_high.price then
              (false, 0, true, swing_high.price,
               { st with swingHigh := some { swing_high with is_broken := true } })
            else (false, 0, false, 0, st)
          | none => (false, 0, false, 0, st)
        else (false, 0, false, 0, st)
      let swing_low_broken := swingCheck.1
      let previous_swing_low := swingCheck.2.1
      let swing_high_broken := swingCheck.2.2.1
      let previous_swing_high := swingCheck.2.2.2.1
      let st1 := swingCheck.2.2.2.2
      let alert : BreakoutFailureAlert :=
        { instrument := instrument
          range_upper := r.upper_bound
          range_lower := r.lower_bound
          breakout_price := breakout_price
          breakdown_price := close_price
          previous_swing_low := previous_swing_low
          previous_swing_high := previous_swing_high
          swing_low_broken := swing_low_broken
          swing_high_broken := swing_high_broken
          breakdown_time := c.ts
          candles_for_failure := candles_for_failure
          volume_spike := volume_spike
          direction := if direction = "up" then "up_failure" else "down_failure" }
      let newPhase : BreakoutPhase :=
        if direction = "up" then
          if swing_low_broken then .SWING_LOW_BROKEN else .BREAKOUT_FAILURE_UP
        else
          if swing_high_broken then .SWING_HIGH_BROKEN else .BREAKOUT_FAILURE_DOWN
      (some alert,
       { st1 with rangeLevel := some r',
                  failureHistory := st1.failureHistory ++ [alert],
                  phase := some newPhase })
    else (none, st)

/-- `BreakoutFailureDetector.update_swing_low`. -/
def update_swing_low (st : BFState) (price_data : List Candle) : BFState :=
  if price_data.length < 10 then st
  else
    match pyMinBy Candle.low (pyLastN 30 price_data) with
    | none => st
    | some lowest =>
      { st with swingLow := some { price := lowest.low, time := lowest.ts,
                                   is_broken := false } }

/-- `BreakoutFailureDetector.update_swing_high`. -/
def update_swing_high (st : BFState) (price_data : List Candle) : BFState :=
  if price_data.length < 10 then st
  else
    match pyMaxBy Candle.high (pyLastN 30 price_data) with
    | none => st
    | some highest =>
      { st with swingHigh := some { price := highest.high, time := highest.ts,
                                    is_broken := false } }

/-- `BreakoutFailureDetector.process_candle`, the sole entry point: append
and trim the history, periodically refresh the swing levels, then run
range detection (only in consolidation), breakout detection (whenever a
range is stored) and failure detection (only from a breakout phase), with
the post-failure reset to consolidation. -/
def process_candle (instrument : String) (st : BFState) (c : Candle) :
    Option BreakoutFailureAlert × BFState :=
  let hist := pyTrim 200 (st.history ++ [c])
  let st1 : BFState := { st with history := hist }
  let st2 :=
    if hist.length > 30 ∧ hist.length % 10 = 0 then
      update_swing_high (update_swing_low st1 hist) hist
    else st1
  let phase := st2.phase.getD .CONSOLIDATION
  let st3 :=
    if phase = .CONSOLIDATION then
      match detect_range hist 50 20 with
      | some range_level =>
        if st2.rangeLevel = some range_level then st2
        else { st2 with rangeLevel := some range_level }
      | none => st2
    else st2
  match st3.rangeLevel with
  | none => (none, st3)
  | some range_level =>
    let fired := detect_breakout c range_level st3
    if fired.1 then (none, fired.2)
    else
      if phase = .BREAKOUT_UP ∨ phase = .BREAKOUT_DOWN then
        let res := detect_breakdown_after_breakout instrument c range_level fired.2
        match res.1 with
        | some alert =>
          (some alert, { res.2 with rangeLevel := none,
                                    breakoutPrice := none,
                                    phase := some .CONSOLIDATION })
        | none => (none, res.2)
      else (none, fired.2)

/-- One state step of `process_candle`. -/
def bf_step (instrument : String) (st : BFState) (c : Candle) : BFState :=
  (process_candle instrument st c).2

/-- Fold a whole candle sequence through the detector. -/
def bf_run (instrument : String) (st : BFState) (cs : List Candle) : BFState :=
  cs.foldl (bf_step instrument) st

/-- The phase an external reader observes:
`self.current_phase.get(instrument, BreakoutPhase.CONSOLIDATION)`. -/
def bfPhase (st : BFState) : BreakoutPhase := st.phase.getD .CONSOLIDATION

/-- Character-level prefix test (structural, so that concrete instrument
names evaluate inside the kernel). -/
def charsPrefix : List Char → List Char → Bool
  | [], _ => true
  | _ :: _, [] => false
  | p :: ps, c :: cs => p = c && charsPrefix ps cs

/-- Character-level substring search. -/
def charsInfix (pat : List Char) : List Char → Bool
  | [] => charsPrefix pat []
  | c :: rest => charsPrefix pat (c :: rest) || charsInfix pat rest

/-- Python `pat in s` substring test. -/
def strContains (s pat : String) : Bool :=
  charsInfix pat.data s.data

/-- Replace every (non-overlapping, leftmost-first) occurrence of `old`
in `s` by `new`; the fuel argument makes the recursion structural. -/
def replaceCharsAux (old new : List Char) : ℕ → List Char → List Char
  | 0, s => s
  | _, [] => []
  | fuel + 1, c :: rest =>
    if charsPrefix old (c :: rest) && !old.isEmpty then
      new ++ replaceCharsAux old new fuel ((c :: rest).drop old.length)
    else c :: replaceCharsAux old new fuel rest

/-- Python `s.replace(old, new)` (for the nonempty patterns used here). -/
def pyReplace (s old new : String) : String :=
  String.mk (replaceCharsAux old.data new.data s.data.length s.data)

/-- Tokenizer step for Python `s.split()`: cut at every space. -/
def splitSpaces (cs : List Char) : List (List Char) :=
  cs.foldr
    (fun c acc =>
      match acc with
      | [] => if c = ' ' then [[], []] else [[c]]
      | t :: rest => if c = ' ' then [] :: t :: rest else (c :: t) :: rest)
    [[]]

/-- Python `s.split()` on instrument names: split on whitespace, dropping
empty tokens. -/
def pySplit (s : String) : List String :=
  ((splitSpaces s.data).filter (· ≠ [])).map String.mk

/-- Digit value of a character, `none` when not a decimal digit. -/
def digitVal (c : Char) : Option ℕ :=
  if '0' ≤ c ∧ c ≤ '9' then some (c.toNat - '0'.toNat) else none

/-- All-digit parse accumulating left to right. -/
def parseNatChars (acc : ℕ) : List Char → Option ℕ
  | [] => some acc
  | c :: cs =>
    match digitVal c with
    | some d => parseNatChars (acc * 10 + d) cs
    | none => none

/-- Python `int(token)` on a clean token: optional sign plus decimal
digits; anything else raises, modelled as `none`. -/
def pyInt (s : String) : Option ℤ :=
  match s.data with
  | [] => none
  | '-' :: rest =>
    if rest = [] then none else (parseNatChars 0 rest).map fun n => -(n : ℤ)
  | '+' :: rest =>
    if rest = [] then none else (parseNatChars 0 rest).map fun n => (n : ℤ)
  | cs => (parseNatChars 0 cs).map fun n => (n : ℤ)

/-- `MomentumLevel` dataclass of `momentum_entry_detector.py`. -/
structure MomentumLevel where
  asset : String
  strike : ℤ
  breakdown_level : ℚ
  momentum_candles : List Candle
  entry_point : ℚ
  entry_time : ℚ
  red_candles_count : ℕ
deriving DecidableEq

/-- The dictionary returned by `calculate_entry_point`. -/
structure EntryResult where
  breakdown_instrument : String
  breakdown_level : ℚ
  breakdown_asset : String
  opposite_instrument : String
  momentum_asset : String
  strike : ℤ
  entry_point : ℚ
  entry_time : ℚ
  momentum_candles_count : ℕ
  signal : String
deriving DecidableEq

/-- State of `MomentumEntryDetector`: its two per-instrument dictionaries
(`price_history` is never written by the methods modelled here). -/
structure MomentumState where
  breakdown_levels : String → Option ℚ
  momentum_levels : String → Option MomentumLevel

/-- A momentum-detector state with empty dictionaries. -/
def momEmpty : MomentumState :=
  { breakdown_levels := fun _ => none, momentum_levels := fun _ => none }

/-- `MomentumEntryDetector.mark_breakdown_level`: fewer than 2 red candles
returns without touching the state, else stores the mean of their lows. -/
def mark_breakdown_level (st : MomentumState) (instrument : String)
    (_breakdown_price : ℚ) (red_candles : List Candle) : MomentumState :=
  if red_candles.length < 2 then st
  else
    let lows := red_candles.map Candle.low
    let avg_breakdown_level := lows.sum / (lows.length : ℚ)
    { st with breakdown_levels := fun k =>
        if k = instrument then some avg_breakdown_level
        else st.breakdown_levels k }

/-- `MomentumEntryDetector.get_opposite_instrument`: swap the " CE" and
" PE" tokens, or return the input unchanged when neither occurs. -/
def get_opposite_instrument (instrument : String) : String :=
  if strContains instrument " CE" then pyReplace instrument " CE" " PE"
  else if strContains instrument " PE" then pyReplace instrument " PE" " CE"
  else instrument

/-- The strike parse of `detect_momentum_in_opposite_side`:
`int(name.split()[-2])` guarded by `try/except` (any failure, including a
short token list or a non-numeric token, yields 0). -/
def parseStrike (instrument : String) : ℤ :=
  if strContains instrument " CE" ∨ strContains instrument " PE" then
    let toks := pySplit instrument
    (pyInt (toks.getD (toks.length - 2) "")).getD 0
  else 0

/-- Python `name.split()[-1]` (empty-string fallback for the untaken
empty case). -/
def lastToken (s : String) : String := (pySplit s).getLastD ""

/-- The window filter of `detect_momentum_in_opposite_side` lines 106-119:
candles at or after the breakdown time and at most `lookback_minutes`
minutes after it (timestamps are in seconds). -/
def inMomentumWindow (breakdown_time : ℚ) (lookback_minutes : ℕ) (c : Candle) :
    Bool :=
  breakdown_time ≤ c.ts ∧ (c.ts - breakdown_time) / 60 ≤ (lookback_minutes : ℚ)

/-- `MomentumEntryDetector.is_green_candle`: close strictly above open. -/
def is_green_candle (c : Candle) : Bool := c.open_ < c.close

/-- The green candles inside the lookback window after the breakdown,
i.e. the two selection loops of `detect_momentum_in_opposite_side`
composed. -/
def momentumGreens (opposite_price_history : List Candle)
    (breakdown_time : ℚ) (lookback_minutes : ℕ) : List Candle :=
  (opposite_price_history.filter (inMomentumWindow breakdown_time lookback_minutes)).filter
    is_green_candle

/-- `MomentumEntryDetector.detect_momentum_in_opposite_side`. -/
def detect_momentum_in_opposite_side (st : MomentumState)
    (breakdown_instrument : String) (opposite_price_history : List Candle)
    (breakdown_time : ℚ) (lookback_minutes : ℕ) : Option MomentumLevel :=
  if opposite_price_history.length < 2 then none
  else
    let opposite_instrument := get_opposite_instrument breakdown_instrument
    let strike := parseStrike breakdown_instrument
    let momentum_candles :=
      opposite_price_history.filter (inMomentumWindow breakdown_time lookback_minutes)
    if momentum_candles.length < 2 then none
    else
      let momentum_candles_to_use := momentum_candles.filter is_green_candle
      if momentum_candles_to_use.length < 2 then none
      else
        let lows := momentum_candles_to_use.map Candle.low
        let entry_point := lows.sum / (lows.length : ℚ)
        let breakdown_level := (st.breakdown_levels breakdown_instrument).getD 0
        some { asset := lastToken opposite_instrument
               strike := strike
               breakdown_level := breakdown_level
               momentum_candles := momentum_candles_to_use
               entry_point := entry_point
               entry_time := ((momentum_candles.getLast?).map Candle.ts).getD 0
               red_candles_count := momentum_candles_to_use.length }

/-- `MomentumEntryDetector.calculate_entry_point`.  `red_candles[0]` on an
empty list raises `IndexError` before anything runs, modelled as
`Except.error`; every other path is total. -/
def calculate_entry_point (st : MomentumState) (breakdown_instrument : String)
    (opposite_price_history : List Candle) (breakdown_time : ℚ)
    (red_candles : List Candle) :
    Except Unit (Option EntryResult × MomentumState) :=
  match red_candles with
  | [] => .error ()
  | r0 :: _ =>
    let st1 := mark_breakdown_level st breakdown_instrument r0.close red_candles
    match detect_momentum_in_opposite_side st1 breakdown_instrument
        opposite_price_history breakdown_time 5 with
    | some momentum_level =>
      let opposite_instrument := get_opposite_instrument breakdown_instrument
      let st2 : MomentumState :=
        { st1 with momentum_levels := fun k =>
            if k = opposite_instrument then some momentum_level
            else st1.momentum_levels k }
      .ok (some { breakdown_instrument := breakdown_instrument
                  breakdown_level := momentum_level.breakdown_level
                  breakdown_asset := lastToken breakdown_instrument
                  opposite_instrument := opposite_instrument
                  momentum_asset := momentum_level.asset
                  strike := momentum_level.strike
                  entry_point := momentum_level.entry_point
                  entry_time := momentum_level.entry_time
                  momentum_candles_count := momentum_level.red_candles_count
                  signal := momentum_level.asset }, st2)
    | none => .ok (none, st1)

/-- The entry (if any) carried by a `calculate_entry_point` result. -/
def entryOf (r : Except Unit (Option EntryResult × MomentumState)) :
    Option EntryResult :=
  (r.toOption.map Prod.fst).join

/-- Outcome of the `stop_monitoring` route handlers: a normal "stopped"
response or the 404 "not found" response. -/
inductive StopResult where
  | stopped
  | notFound
deriving DecidableEq

/-- The whole-detector state of the global `BreakdownDetector` behind
`routes/breakdown_monitor.py`: each per-instrument dictionary as a map
from instrument name (`none` encodes key absence). -/
structure BDRouteState where
  support_levels : String → Option (List SupportLevel)
  price_history : String → List Candle
  breakdown_history : String → List BreakdownAlert

/-- `routes/breakdown_monitor.py stop_monitoring`: when the instrument has
support levels, deactivate them all (history untouched); otherwise answer
404 without touching anything. -/
def bd_stop_monitoring (st : BDRouteState) (instrument : String) :
    StopResult × BDRouteState :=
  match st.support_levels instrument with
  | some levels =>
    (.stopped,
     { st with support_levels := fun k =>
         if k = instrument then some (levels.map fun s => { s with is_active := false })
         else st.support_levels k })
  | none => (.notFound, st)

/-- The whole-detector state of the global `BreakoutFailureDetector` behind
`routes/breakout_failure_monitor.py`. -/
structure BFRouteState where
  range_levels : String → Option RangeLevel
  swing_lows : String → Option SwingLow
  swing_highs : String → Option SwingHigh
  breakout_prices : String → Option ℚ
  breakout_direction : String → Option String
  price_history : String → List Candle
  failure_history : String → List BreakoutFailureAlert
  current_phase : String → Option BreakoutPhase

/-- `routes/breakout_failure_monitor.py stop_monitoring`: when the
instrument has a phase entry, pop its phase, range level and breakout
price (the candle history, swing points, direction and failure history
are left in place); otherwise answer 404 without touching anything. -/
def bf_stop_monitoring (st : BFRouteState) (instrument : String) :
    StopResult × BFRouteState :=
  if (st.current_phase instrument).isSome then
    (.stopped,
     { st with current_phase := fun k =>
                 if k = instrument then none else st.current_phase k,
               range_levels := fun k =>
                 if k = instrument then none else st.range_levels k,
               breakout_prices := fun k =>
                 if k = instrument then none else st.breakout_prices k })
  else (.notFound, st)

/-! ### Helper lemmas about the embedded operations -/

theorem pyLastN_le_length_iff (n : ℕ) (l : List α) :
    n ≤ (pyLastN n l).length ↔ n ≤ l.length := by
  unfold pyLastN
  split
  · omega
  · simp only [List.length_drop]
    omega

theorem update_price_state (i : String) (st : BDState) (c : Candle) (t : ℚ) :
    (update_price i st c t).2 = { st with history := pyTrim 100 (st.history ++ [c]) } := rfl

theorem update_swing_low_only (st : BFState) (l : List Candle) :
    (update_swing_low st l).rangeLevel = st.rangeLevel ∧
    (update_swing_low st l).swingHigh = st.swingHigh ∧
    (update_swing_low st l).breakoutPrice = st.breakoutPrice ∧
    (update_swing_low st l).breakoutDirection = st.breakoutDirection ∧
    (update_swing_low st l).history = st.history ∧
    (update_swing_low st l).failureHistory = st.failureHistory ∧
    (update_swing_low st l).phase = st.phase := by
  unfold update_swing_low
  split
  · exact ⟨rfl, rfl, rfl, rfl, rfl, rfl, rfl⟩
  · split <;> exact ⟨rfl, rfl, rfl, rfl, rfl, rfl, rfl⟩

theorem update_swing_high_only (st : BFState) (l : List Candle) :
    (update_swing_high st l).rangeLevel = st.rangeLevel ∧
    (update_swing_high st l).swingLow = st.swingLow ∧
    (update_swing_high st l).breakoutPrice = st.breakoutPrice ∧
    (update_swing_high st l).breakoutDirection = st.breakoutDirection ∧
    (update_swing_high st l).history = st.history ∧
    (update_swing_high st l).failureHistory = st.failureHistory ∧
    (update_swing_high st l).phase = st.phase := by
  unfold update_swing_high
  split
  · exact ⟨rfl, rfl, rfl, rfl, rfl, rfl, rfl⟩
  · split <;> exact ⟨rfl, rfl, rfl, rfl, rfl, rfl, rfl⟩

theorem detect_breakout_history (c : Candle) (r : RangeLevel) (st : BFState) :
    (detect_breakout c r st).2.history = st.history := by
  unfold detect_breakout
  split
  · rfl
  · split <;> rfl

theorem detect_breakdown_history (i : String) (c : Candle) (r : RangeLevel)
    (st : BFState) :
    (detect_breakdown_after_breakout i c r st).2.history = st.history := by
  unfold detect_breakdown_after_breakout
  dsimp only
  repeat' split
  all_goals rfl

theorem process_candle_history (i : String) (st : BFState) (c : Candle) :
    (process_candle i st c).2.history = pyTrim 200 (st.history ++ [c]) := by
  unfold process_candle
  dsimp only
  repeat' split
  all_goals
    simp [detect_breakout_history, detect_breakdown_history,
      (update_swing_low_only _ _).2.2.2.2.1, (update_swing_high_only _ _).2.2.2.2.1,
      update_swing_low_only, update_swing_high_only]

theorem pyTrim_drop (cap : ℕ) (hcap : 0 < cap) (cs : List α) (c : α) :
    pyTrim cap (cs.drop (cs.length - cap) ++ [c]) =
      (cs ++ [c]).drop (cs.length + 1 - cap) := by
  unfold pyTrim
  rcases le_or_lt cap cs.length with hle | hlt
  · have hlen : (cs.drop (cs.length - cap) ++ [c]).length = cap + 1 := by
      simp only [List.length_append, List.length_drop, List.length_singleton]
      omega
    rw [if_pos (by omega)]
    rw [hlen]
    have h1 : cap + 1 - cap = 1 := by omega
    rw [h1]
    rw [List.drop_append_eq_append_drop, List.drop_append_eq_append_drop,
      List.drop_drop]
    have h2 : (cs.drop (cs.length - cap)).length = cap := by
      simp only [List.length_drop]; omega
    rw [h2]
    have h3 : cs.length - cap + 1 = cs.length + 1 - cap := by omega
    rw [h3]
    have h4 : 1 - cap = 0 := by omega
    have h5 : cs.length + 1 - cap - cs.length = 0 := by omega
    rw [h4, h5]
  · have h0 : cs.length - cap = 0 := by omega
    rw [h0, List.drop_zero]
    rw [if_neg (by simp only [List.length_append, List.length_singleton]; omega)]
    have h1 : cs.length + 1 - cap = 0 := by omega
    rw [h1, List.drop_zero]

theorem bd_step_history (i : String) (st : BDState) (ct : Candle × ℚ) :
    (bd_step i st ct).history = pyTrim 100 (st.history ++ [ct.1]) := rfl

theorem bd_run_history (i : String) (sl : List SupportLevel)
    (input : List (Candle × ℚ)) :
    (input.foldl (bd_step i) ⟨sl, []⟩).history =
      (input.map Prod.fst).drop (input.length - 100) := by
  induction input using List.reverseRecOn with
  | nil => simp
  | append_singleton xs x ih =>
    rw [List.foldl_append]
    simp only [List.foldl_cons, List.foldl_nil]
    rw [bd_step_history, ih]
    have := pyTrim_drop 100 (by omega) (xs.map Prod.fst) x.1
    simp only [List.length_map] at this
    rw [this]
    simp

theorem bf_run_history (i : String) (cs : List Candle) :
    (bf_run i bfEmpty cs).history = cs.drop (cs.length - 200) := by
  induction cs using List.reverseRecOn with
  | nil => simp [bf_run, bfEmpty]
  | append_singleton xs x ih =>
    unfold bf_run
    rw [List.foldl_append]
    simp only [List.foldl_cons, List.foldl_nil]
    have hstep : ∀ st : BFState, (bf_step i st x).history = pyTrim 200 (st.history ++ [x]) :=
      fun st => process_candle_history i st x
    rw [hstep, show (List.foldl (bf_step i) bfEmpty xs) = bf_run i bfEmpty xs from rfl, ih]
    rw [pyTrim_drop 200 (by omega) xs x]
    simp

theorem pyLastN_ne_nil (n : ℕ) (l : List α) (h : l ≠ []) : pyLastN n l ≠ [] := by
  unfold pyLastN
  split
  · exact h
  · intro hcon
    have := congrArg List.length hcon
    simp only [List.length_drop, List.length_nil] at this
    have : l.length = 0 := by
      rcases Nat.lt_or_ge n l.length with h1 | h1 <;> omega
    exact h (List.length_eq_zero.mp this)

theorem pyMinBy_isSome (f : α → ℚ) (l : List α) (h : l ≠ []) :
    (pyMinBy f l).isSome = true := by
  cases l with
  | nil => exact absurd rfl h
  | cons x xs =>
    unfold pyMinBy
    cases pyMinBy f xs with
    | none => rfl
    | some m => dsimp only; split <;> rfl

theorem pyMaxBy_isSome (f : α → ℚ) (l : List α) (h : l ≠ []) :
    (pyMaxBy f l).isSome = true := by
  cases l with
  | nil => exact absurd rfl h
  | cons x xs =>
    unfold pyMaxBy
    cases pyMaxBy f xs with
    | none => rfl
    | some m => dsimp only; split <;> rfl

theorem detect_breakout_swings (c : Candle) (r : RangeLevel) (st : BFState) :
    (detect_breakout c r st).2.swingLow = st.swingLow ∧
    (detect_breakout c r st).2.swingHigh = st.swingHigh := by
  unfold detect_breakout
  repeat' split
  all_goals exact ⟨rfl, rfl⟩

theorem detect_breakdown_swing_proj (i : String) (c : Candle) (r : RangeLevel)
    (st : BFState) :
    ((detect_breakdown_after_breakout i c r st).2.swingLow.map
        fun sw => (sw.price, sw.time)) =
      (st.swingLow.map fun sw => (sw.price, sw.time)) ∧
    ((detect_breakdown_after_breakout i c r st).2.swingHigh.map
        fun sw => (sw.price, sw.time)) =
      (st.swingHigh.map fun sw => (sw.price, sw.time)) := by
  unfold detect_breakdown_after_breakout
  dsimp only
  repeat' split
  all_goals simp_all

theorem update_swing_low_proj (st : BFState) (l : List Candle) (h : 10 ≤ l.length) :
    ((update_swing_low st l).swingLow.map fun sw => (sw.price, sw.time)) =
      (pyMinBy Candle.low (pyLastN 30 l)).map fun cd => (cd.low, cd.ts) := by
  have hne : l ≠ [] := by
    intro hcon; subst hcon; simp at h
  have hsome := pyMinBy_isSome Candle.low (pyLastN 30 l) (pyLastN_ne_nil 30 l hne)
  unfold update_swing_low
  rw [if_neg (by omega)]
  rcases Option.isSome_iff_exists.mp hsome with ⟨lowest, hmin⟩
  rw [hmin]
  rfl

theorem update_swing_high_proj (st : BFState) (l : List Candle) (h : 10 ≤ l.length) :
    ((update_swing_high st l).swingHigh.map fun sw => (sw.price, sw.time)) =
      (pyMaxBy Candle.high (pyLastN 30 l)).map fun cd => (cd.high, cd.ts) := by
  have hne : l ≠ [] := by
    intro hcon; subst hcon; simp at h
  have hsome := pyMaxBy_isSome Candle.high (pyLastN 30 l) (pyLastN_ne_nil 30 l hne)
  unfold update_swing_high
  rw [if_neg (by omega)]
  rcases Option.isSome_iff_exists.mp hsome with ⟨highest, hmax⟩
  rw [hmax]
  rfl

theorem process_candle_swing_proj (i : String) (st : BFState) (c : Candle) :
    ((process_candle i st c).2.swingLow.map fun sw => (sw.price, sw.time)) =
      (if (pyTrim 200 (st.history ++ [c])).length > 30 ∧
          (pyTrim 200 (st.history ++ [c])).length % 10 = 0 then
        (pyMinBy Candle.low (pyLastN 30 (pyTrim 200 (st.history ++ [c])))).map
          fun cd => (cd.low, cd.ts)
      else st.swingLow.map fun sw => (sw.price, sw.time)) ∧
    ((process_candle i st c).2.swingHigh.map fun sw => (sw.price, sw.time)) =
      (if (pyTrim 200 (st.history ++ [c])).length > 30 ∧
          (pyTrim 200 (st.history ++ [c])).length % 10 = 0 then
        (pyMaxBy Candle.high (pyLastN 30 (pyTrim 200 (st.history ++ [c])))).map
          fun cd => (cd.high, cd.ts)
      else st.swingHigh.map fun sw => (sw.price, sw.time)) := by
  unfold process_candle
  dsimp only
  by_cases hcond : (pyTrim 200 (st.history ++ [c])).length > 30 ∧
      (pyTrim 200 (st.history ++ [c])).length % 10 = 0
  · rw [if_pos hcond, if_pos hcond, if_pos hcond]
    have h10 : 10 ≤ (pyTrim 200 (st.history ++ [c])).length := by omega
    constructor
    all_goals
      repeat' split
      all_goals
        simp [detect_breakout_swings, (detect_breakdown_swing_proj _ _ _ _).1,
          (detect_breakdown_swing_proj _ _ _ _).2,
          (update_swing_high_only _ _).2.1, update_swing_low_proj _ _ h10,
          update_swing_high_proj _ _ h10, (detect_breakout_swings _ _ _).1,
          (detect_breakout_swings _ _ _).2]
  · rw [if_neg hcond, if_neg hcond, if_neg hcond]
    constructor
    all_goals
      repeat' split
      all_goals
        simp [detect_breakout_swings, (detect_breakdown_swing_proj _ _ _ _).1,
          (detect_breakdown_swing_proj _ _ _ _).2, (detect_breakout_swings _ _ _).1,
          (detect_breakout_swings _ _ _).2]

theorem check_breakdown_erase (i : String) (hist : List Candle) (s : SupportLevel)
    (c : Candle) (t t' : ℚ) :
    (check_breakdown i hist s c t).map eraseBDTime =
      (check_breakdown i hist s c t').map eraseBDTime := by
  unfold check_breakdown
  dsimp only
  repeat' split
  all_goals rfl

theorem findSome?_map_congr (f g : α → Option β) (e : β → γ) (l : List α)
    (h : ∀ a, (f a).map e = (g a).map e) :
    (l.findSome? f).map e = (l.findSome? g).map e := by
  induction l with
  | nil => simp
  | cons x xs ih =>
    simp only [List.findSome?]
    cases hfx : f x with
    | some a =>
      have := h x
      rw [hfx] at this
      cases hgx : g x with
      | some b => rw [hgx] at this; simpa using this
      | none => rw [hgx] at this; simp at this
    | none =>
      have := h x
      rw [hfx] at this
      cases hgx : g x with
      | some b => rw [hgx] at this; simp at this
      | none => exact ih

/-! ### Claim C1 -/

theorem update_price_single_level (i : String) (sl : SupportLevel)
    (hist : List Candle) (c : Candle) (t : ℚ) (hactive : sl.is_active = true) :
    (update_price i ⟨[sl], hist⟩ c t).1 =
      check_breakdown i (pyTrim 100 (hist ++ [c])) sl c t := by
  unfold update_price
  dsimp only
  rw [List.findSome?]
  rw [if_pos hactive]
  cases check_breakdown i (pyTrim 100 (hist ++ [c])) sl c t <;> simp [List.findSome?]

/-- C1 (corrected): for a single active support level, `update_price`
emits a breakdown exactly when the current close is strictly below
`price*(1 - tolerancePct/100)`, at least `consolidationPeriods` candles
of (trimmed) history exist, and at least `⌊0.6*consolidationPeriods⌋`
(the integer truncation the code computes, not 60%) of the last
`consolidationPeriods` candles close below that bound; with fewer than
`consolidationPeriods` candles no event is emitted. -/
theorem C1_breakdown_emission_iff (i : String) (sl : SupportLevel)
    (hist : List Candle) (c : Candle) (t : ℚ) (hactive : sl.is_active = true) :
    ((update_price i ⟨[sl], hist⟩ c t).1.isSome = true) ↔
      (c.close < supportLowerBound sl ∧
       sl.consolidation_periods ≤ (pyTrim 100 (hist ++ [c])).length ∧
       breakdownThreshold sl.consolidation_periods ≤
         countBelowSupport sl
           (pyLastN sl.consolidation_periods (pyTrim 100 (hist ++ [c])))) := by
  rw [update_price_single_level i sl hist c t hactive]
  unfold check_breakdown is_decisive_breakdown
  dsimp only
  by_cases h1 : c.close < supportLowerBound sl
  · rw [if_pos h1]
    by_cases h2 : sl.consolidation_periods ≤
        (pyTrim 100 (hist ++ [c])).length
    · have hlen : ¬ ((pyLastN sl.consolidation_periods
          (pyTrim 100 (hist ++ [c]))).length < sl.consolidation_periods) := by
        have := (pyLastN_le_length_iff sl.consolidation_periods
          (pyTrim 100 (hist ++ [c]))).mpr h2
        omega
      rw [if_neg hlen]
      by_cases h3 : breakdownThreshold sl.consolidation_periods ≤
          countBelowSupport sl
            (pyLastN sl.consolidation_periods (pyTrim 100 (hist ++ [c])))
      · simp [h1, h2, h3]
      · simp [h3]
    · have hlen : (pyLastN sl.consolidation_periods
          (pyTrim 100 (hist ++ [c]))).length < sl.consolidation_periods := by
        have := (pyLastN_le_length_iff sl.consolidation_periods
          (pyTrim 100 (hist ++ [c])))
        omega
      rw [if_pos hlen]
      simp [h2]
  · rw [if_neg h1]
    simp [h1]

/-- Support level with `consolidationPeriods = 4` used to exhibit the
integer-truncation counterexample. -/
def sl4 : SupportLevel :=
  { price := 100, tolerance := 0, min_touches := 2, consolidation_periods := 4,
    is_active := true }

/-- A candle closing at `cl` used by the C1 concrete runs. -/
def bdCandle (cl : ℚ) (t : ℚ) : Candle :=
  { ts := t, open_ := 100, high := 101, low := 98, close := cl, volume := 1 }

/-- Breakdown-detector state holding `sl4` and three candles with closes
100, 100, 99. -/
def bdCxState : BDState :=
  { supportLevels := [sl4],
    history := [bdCandle 100 1, bdCandle 100 2, bdCandle 99 3] }

unseal Rat.add Rat.mul Rat.inv Rat.sub Rat.ofScientific in
/-- C1 counterexample: with `consolidationPeriods = 4` and closes
100, 100, 99, 99 the detector emits a breakdown although only 2 of the
last 4 candles (50%, fewer than 60%) close below the bound, because the
code truncates `4*0.6` to 2. -/
theorem C1_counterexample :
    ((update_price "I" bdCxState (bdCandle 99 4) 7).1.isSome = true) ∧
    5 * countBelowSupport sl4
        (pyLastN sl4.consolidation_periods
          (pyTrim 100 (bdCxState.history ++ [bdCandle 99 4]))) <
      3 * sl4.consolidation_periods := by
  constructor
  · decide
  · decide

/-- C1 witness: the amended equivalence instantiated at the concrete
state above. -/
theorem C1_witness :
    sl4.is_active = true ∧
    (((update_price "I" ⟨[sl4], bdCxState.history⟩ (bdCandle 99 4) 7).1.isSome = true) ↔
      ((bdCandle 99 4).close < supportLowerBound sl4 ∧
       sl4.consolidation_periods ≤
         (pyTrim 100 (bdCxState.history ++ [bdCandle 99 4])).length ∧
       breakdownThreshold sl4.consolidation_periods ≤
         countBelowSupport sl4
           (pyLastN sl4.consolidation_periods
             (pyTrim 100 (bdCxState.history ++ [bdCandle 99 4]))))) :=
  ⟨rfl, C1_breakdown_emission_iff "I" sl4 bdCxState.history (bdCandle 99 4) 7 rfl⟩

/-! ### Claim C2 -/

theorem detect_breakout_nofire (c : Candle) (r : RangeLevel) (st : BFState)
    (hhigh : c.high ≤ r.upper_bound) (hlow : r.lower_bound ≤ c.low) :
    detect_breakout c r st = (false, st) := by
  unfold detect_breakout
  rw [if_neg (not_lt.mpr hhigh), if_neg (not_lt.mpr hlow)]

theorem detect_breakdown_up_dir (i : String) (c : Candle) (r : RangeLevel)
    (st : BFState) (bp : ℚ) (hbp : st.breakoutPrice = some bp)
    (hdir : st.breakoutDirection = some "up")
    (hclose : c.close < r.upper_bound) :
    ((detect_breakdown_after_breakout i c r st).1.map
      BreakoutFailureAlert.direction) = some "up_failure" := by
  unfold detect_breakdown_after_breakout
  rw [hbp]
  dsimp only
  rw [hdir]
  simp [hclose]

theorem detect_breakdown_down_dir (i : String) (c : Candle) (r : RangeLevel)
    (st : BFState) (bp : ℚ) (hbp : st.breakoutPrice = some bp)
    (hdir : st.breakoutDirection = some "down")
    (hclose : r.lower_bound < c.close) :
    ((detect_breakdown_after_breakout i c r st).1.map
      BreakoutFailureAlert.direction) = some "down_failure" := by
  unfold detect_breakdown_after_breakout
  rw [hbp]
  dsimp only
  rw [hdir]
  simp [hclose]

theorem double_swing_fields (st : BFState) (l l2 : List Candle) :
    (update_swing_high (update_swing_low st l) l2).rangeLevel = st.rangeLevel ∧
    (update_swing_high (update_swing_low st l) l2).breakoutPrice = st.breakoutPrice ∧
    (update_swing_high (update_swing_low st l) l2).breakoutDirection =
      st.breakoutDirection ∧
    (update_swing_high (update_swing_low st l) l2).history = st.history ∧
    (update_swing_high (update_swing_low st l) l2).phase = st.phase := by
  obtain ⟨a1, -, a3, a4, a5, -, a7⟩ := update_swing_high_only (update_swing_low st l) l2
  obtain ⟨b1, -, b3, b4, b5, -, b7⟩ := update_swing_low_only st l
  exact ⟨a1.trans b1, a3.trans b3, a4.trans b4, a5.trans b5, a7.trans b7⟩

theorem process_candle_breakout_reduce (i : String) (st : BFState)
    (r : RangeLevel) (c : Candle) (ph : BreakoutPhase) (hph : st.phase = some ph)
    (hbd : ph = .BREAKOUT_UP ∨ ph = .BREAKOUT_DOWN) (hr : st.rangeLevel = some r)
    (hhigh : c.high ≤ r.upper_bound) (hlow : r.lower_bound ≤ c.low) :
    ∃ st2 : BFState, st2.breakoutPrice = st.breakoutPrice ∧
      st2.breakoutDirection = st.breakoutDirection ∧
      (process_candle i st c).1 = (detect_breakdown_after_breakout i c r st2).1 := by
  have hnc : ¬ (ph = BreakoutPhase.CONSOLIDATION) := by
    rcases hbd with rfl | rfl <;> decide
  obtain ⟨rl, sw1, sw2, bp0, bd0, hist0, fh0, phs0⟩ := st
  simp only at hph hr
  subst hph
  subst hr
  unfold process_candle
  dsimp only
  by_cases hsw : ((pyTrim 200 (hist0 ++ [c])).length > 30 ∧
      (pyTrim 200 (hist0 ++ [c])).length % 10 = 0)
  · rw [if_pos hsw]
    refine ⟨update_swing_high
      (update_swing_low
        ⟨some r, sw1, sw2, bp0, bd0, pyTrim 200 (hist0 ++ [c]), fh0, some ph⟩
        (pyTrim 200 (hist0 ++ [c]))) (pyTrim 200 (hist0 ++ [c])),
      (double_swing_fields _ _ _).2.1, (double_swing_fields _ _ _).2.2.1, ?_⟩
    have hph2 := (double_swing_fields
      ⟨some r, sw1, sw2, bp0, bd0, pyTrim 200 (hist0 ++ [c]), fh0, some ph⟩
      (pyTrim 200 (hist0 ++ [c])) (pyTrim 200 (hist0 ++ [c]))).2.2.2.2
    have hr2 := (double_swing_fields
      ⟨some r, sw1, sw2, bp0, bd0, pyTrim 200 (hist0 ++ [c]), fh0, some ph⟩
      (pyTrim 200 (hist0 ++ [c])) (pyTrim 200 (hist0 ++ [c]))).1
    rw [hph2]
    simp only [Option.getD_some]
    rw [if_neg hnc, hr2]
    dsimp only
    rw [detect_breakout_nofire c r _ hhigh hlow]
    dsimp only
    rw [if_pos hbd]
    cases (detect_breakdown_after_breakout i c r
      (update_swing_high
        (update_swing_low
          ⟨some r, sw1, sw2, bp0, bd0, pyTrim 200 (hist0 ++ [c]), fh0, some ph⟩
          (pyTrim 200 (hist0 ++ [c]))) (pyTrim 200 (hist0 ++ [c])))).1 <;> rfl
  · rw [if_neg hsw]
    refine ⟨⟨some r, sw1, sw2, bp0, bd0,
      pyTrim 200 (hist0 ++ [c]), fh0, some ph⟩, rfl, rfl, ?_⟩
    dsimp only
    simp only [Option.getD_some]
    rw [if_neg hnc]
    dsimp only
    rw [detect_breakout_nofire c r _ hhigh hlow]
    dsimp only
    rw [if_pos hbd]
    cases (detect_breakdown_after_breakout i c r
      ⟨some r, sw1, sw2, bp0, bd0, pyTrim 200 (hist0 ++ [c]), fh0, some ph⟩).1 <;> rfl

/-- C2 (corrected): in phase BREAKOUT_UP with a stored RangeLevel and
recorded breakout price, a candle yields an up_failure event on that very
candle (no confirmation window) the moment its close is back below
upperBound, provided the candle does not itself re-trigger breakout
detection (high ≤ upperBound and low ≥ lowerBound; breakout detection
re-runs first whenever a range is stored and preempts the failure check);
symmetrically a down_failure in phase BREAKOUT_DOWN when close > lowerBound. -/
theorem C2_reentry_failure (i : String) (st : BFState) (r : RangeLevel)
    (bp : ℚ) (c : Candle) (hr : st.rangeLevel = some r)
    (hbp : st.breakoutPrice = some bp) (hhigh : c.high ≤ r.upper_bound)
    (hlow : r.lower_bound ≤ c.low) :
    (st.phase = some .BREAKOUT_UP → st.breakoutDirection = some "up" →
      c.close < r.upper_bound →
      ((process_candle i st c).1.map BreakoutFailureAlert.direction) =
        some "up_failure") ∧
    (st.phase = some .BREAKOUT_DOWN → st.breakoutDirection = some "down" →
      r.lower_bound < c.close →
      ((process_candle i st c).1.map BreakoutFailureAlert.direction) =
        some "down_failure") := by
  constructor
  · intro hph hdir hclose
    obtain ⟨st2, hbp2, hdir2, heq⟩ :=
      process_candle_breakout_reduce i st r c _ hph (Or.inl rfl) hr hhigh hlow
    rw [heq]
    exact detect_breakdown_up_dir i c r st2 bp (hbp2.trans hbp)
      (hdir2.trans hdir) hclose
  · intro hph hdir hclose
    obtain ⟨st2, hbp2, hdir2, heq⟩ :=
      process_candle_breakout_reduce i st r c _ hph (Or.inr rfl) hr hhigh hlow
    rw [heq]
    exact detect_breakdown_down_dir i c r st2 bp (hbp2.trans hbp)
      (hdir2.trans hdir) hclose

/-- Range `[100, 101]` used by the C2 concrete runs. -/
def rngC2 : RangeLevel :=
  { upper_bound := 101, lower_bound := 100, start_time := 0, end_time := none,
    touch_count := 5 }

/-- A candle inside the C2 range. -/
def c2Base : Candle :=
  { ts := 0, open_ := 100.5, high := 101, low := 100, close := 100.5, volume := 1 }

/-- Detector state in phase BREAKOUT_UP over `rngC2`. -/
def c2State : BFState :=
  { rangeLevel := some rngC2, swingLow := none, swingHigh := none,
    breakoutPrice := some 102, breakoutDirection := some "up",
    history := [c2Base], failureHistory := [], phase := some .BREAKOUT_UP }

/-- A candle that closes back inside the range but whose high again exceeds
the upper bound. -/
def c2Spike : Candle :=
  { ts := 9, open_ := 101, high := 103, low := 100.6, close := 100.5, volume := 1 }

/-- A candle that closes back inside the range and stays inside it. -/
def c2Good : Candle :=
  { ts := 9, open_ := 100.4, high := 100.9, low := 100.2, close := 100.5,
    volume := 1 }

unseal Rat.add Rat.mul Rat.inv Rat.sub Rat.ofScientific in
/-- C2 counterexample: in phase BREAKOUT_UP with a stored range, a candle
whose close (100.5) is below upperBound (101) yields NO event, because its
high (103) re-triggers breakout detection first. -/
theorem C2_counterexample :
    c2State.phase = some BreakoutPhase.BREAKOUT_UP ∧
    c2State.rangeLevel = some rngC2 ∧
    c2Spike.close < rngC2.upper_bound ∧
    (process_candle "I" c2State c2Spike).1 = none := by
  refine ⟨rfl, rfl, by decide, by decide⟩

unseal Rat.add Rat.mul Rat.inv Rat.sub Rat.ofScientific in
/-- C2 witness: the amended statement applied to a candle that stays inside
the range, producing the immediate up_failure event. -/
theorem C2_witness :
    c2State.rangeLevel = some rngC2 ∧ c2State.breakoutPrice = some 102 ∧
    ((process_candle "I" c2State c2Good).1.map BreakoutFailureAlert.direction) =
      some "up_failure" :=
  ⟨rfl, rfl,
    (C2_reentry_failure "I" c2State rngC2 102 c2Good rfl rfl (by decide)
      (by decide)).1 rfl rfl (by decide)⟩

/-! ### Claim C3 -/

theorem detect_breakout_phase (c : Candle) (r : RangeLevel) (st : BFState) :
    (detect_breakout c r st).2.phase = st.phase ∨
    (detect_breakout c r st).2.phase = some BreakoutPhase.BREAKOUT_UP ∨
    (detect_breakout c r st).2.phase = some BreakoutPhase.BREAKOUT_DOWN := by
  unfold detect_breakout
  repeat' split
  all_goals simp

theorem detect_breakdown_cases (i : String) (c : Candle) (r : RangeLevel)
    (st : BFState) :
    detect_breakdown_after_breakout i c r st = (none, st) ∨
    ((detect_breakdown_after_breakout i c r st).1).isSome = true := by
  unfold detect_breakdown_after_breakout
  dsimp only
  repeat' split
  all_goals simp

theorem detect_breakdown_none_state (i : String) (c : Candle)
    (rl : RangeLevel) (stz : BFState)
    (h : (detect_breakdown_after_breakout i c rl stz).1 = none) :
    (detect_breakdown_after_breakout i c rl stz).2 = stz := by
  rcases detect_breakdown_cases i c rl stz with h' | h'
  · rw [h']
  · rw [h] at h'
    simp at h'

theorem breakout_phase_goal (c : Candle) (rl : RangeLevel) (stz : BFState)
    (p0 : Option BreakoutPhase) (h : stz.phase = p0) :
    (detect_breakout c rl stz).2.phase = p0 ∨
    (detect_breakout c rl stz).2.phase = some BreakoutPhase.BREAKOUT_UP ∨
    (detect_breakout c rl stz).2.phase = some BreakoutPhase.BREAKOUT_DOWN ∨
    (detect_breakout c rl stz).2.phase = some BreakoutPhase.CONSOLIDATION := by
  rcases detect_breakout_phase c rl stz with h' | h' | h'
  · exact Or.inl (h'.trans h)
  · exact Or.inr (Or.inl h')
  · exact Or.inr (Or.inr (Or.inl h'))

theorem bf_step_phase_cases (i : String) (st : BFState) (c : Candle) :
    (bf_step i st c).phase = st.phase ∨
    (bf_step i st c).phase = some BreakoutPhase.BREAKOUT_UP ∨
    (bf_step i st c).phase = some BreakoutPhase.BREAKOUT_DOWN ∨
    (bf_step i st c).phase = some BreakoutPhase.CONSOLIDATION := by
  unfold bf_step process_candle
  dsimp only
  by_cases hsw : ((pyTrim 200 (st.history ++ [c])).length > 30 ∧
      (pyTrim 200 (st.history ++ [c])).length % 10 = 0)
  · simp only [if_pos hsw]
    repeat' split
    all_goals
      first
      | (left
         simp [double_swing_fields]
         done)
      | (rw [detect_breakdown_none_state _ _ _ _ (by assumption)]
         apply breakout_phase_goal
         simp [double_swing_fields]
         done)
      | (apply breakout_phase_goal
         simp [double_swing_fields]
         done)
      | (simp_all only []
         rw [detect_breakdown_none_state _ _ _ _ (by assumption)]
         apply breakout_phase_goal
         simp [double_swing_fields]
         done)
      | simp
  · simp only [if_neg hsw]
    repeat' split
    all_goals
      first
      | (left
         simp [double_swing_fields]
         done)
      | (rw [detect_breakdown_none_state _ _ _ _ (by assumption)]
         apply breakout_phase_goal
         simp [double_swing_fields]
         done)
      | (apply breakout_phase_goal
         simp [double_swing_fields]
         done)
      | (simp_all only []
         rw [detect_breakdown_none_state _ _ _ _ (by assumption)]
         apply breakout_phase_goal
         simp [double_swing_fields]
         done)
      | simp

/-- C3 (corrected): the phase observed after each processed candle is
always one of CONSOLIDATION, BREAKOUT_UP, BREAKOUT_DOWN — the failure and
swing-broken phases are transient, being reset to CONSOLIDATION within the
same `process_candle` call.  Because breakout detection re-runs on every
candle while a range is stored, the phase does NOT move strictly
sequentially: BREAKOUT_UP can be followed directly by BREAKOUT_DOWN (and
vice versa) with no intervening CONSOLIDATION, and any of the three
observable phases can follow any other. -/
theorem C3_observable_phases (i : String) (cs : List Candle) :
    bfPhase (bf_run i bfEmpty cs) = BreakoutPhase.CONSOLIDATION ∨
    bfPhase (bf_run i bfEmpty cs) = BreakoutPhase.BREAKOUT_UP ∨
    bfPhase (bf_run i bfEmpty cs) = BreakoutPhase.BREAKOUT_DOWN := by
  induction cs using List.reverseRecOn with
  | nil => left; rfl
  | append_singleton xs x ih =>
    unfold bf_run at ih ⊢
    rw [List.foldl_append]
    simp only [List.foldl_cons, List.foldl_nil]
    rcases bf_step_phase_cases i (List.foldl (bf_step i) bfEmpty xs) x with
      h | h | h | h
    · unfold bfPhase at ih ⊢
      rw [h]
      exact ih
    · right; left; unfold bfPhase; rw [h]; rfl
    · right; right; unfold bfPhase; rw [h]; rfl
    · left; unfold bfPhase; rw [h]; rfl

/-- A candle confined to `[100, 101]`, consolidation fodder for C3. -/
def c3Base : Candle :=
  { ts := 0, open_ := 100.5, high := 101, low := 100, close := 100.5, volume := 1 }

/-- A candle whose high 103 breaks above the `[100, 101]` range. -/
def c3Break : Candle :=
  { ts := 51, open_ := 101, high := 103, low := 100.5, close := 102, volume := 1 }

/-- A candle whose low 99 dips below the range lower bound while its high
stays inside. -/
def c3Dip : Candle :=
  { ts := 52, open_ := 100.2, high := 100.9, low := 99, close := 100.2,
    volume := 1 }

/-- 50 range-bound candles followed by the upward break. -/
def c3Seq : List Candle := List.replicate 50 c3Base ++ [c3Break]

unseal Rat.add Rat.mul Rat.inv Rat.sub Rat.ofScientific in
set_option maxRecDepth 20000 in
/-- C3 counterexample: from empty state the phase is BREAKOUT_UP after 51
candles and BREAKOUT_DOWN immediately on the next candle, with no
intervening CONSOLIDATION. -/
theorem C3_counterexample :
    bfPhase (bf_run "I" bfEmpty c3Seq) = BreakoutPhase.BREAKOUT_UP ∧
    bfPhase (bf_run "I" bfEmpty (c3Seq ++ [c3Dip])) =
      BreakoutPhase.BREAKOUT_DOWN := by
  constructor
  · decide
  · decide

/-! ### Claim C4 -/

/-- A candle confined to `[100, 101.8]` (width ≈ 1.78%). -/
def c4Tight : Candle :=
  { ts := 0, open_ := 100.9, high := 101.8, low := 100, close := 100.9,
    volume := 1 }

/-- The candle with high 103 that breaks above the `[100, 101.8]` range. -/
def c4Break : Candle :=
  { ts := 51, open_ := 101, high := 103, low := 100.5, close := 102, volume := 1 }

/-- The candle closing at 100.5, back inside the range. -/
def c4Fail : Candle :=
  { ts := 52, open_ := 100.6, high := 101, low := 100.3, close := 100.5,
    volume := 1 }

/-- 50 tight candles followed by the upward break. -/
def c4Seq51 : List Candle := List.replicate 50 c4Tight ++ [c4Break]

unseal Rat.add Rat.mul Rat.inv Rat.sub Rat.ofScientific in
set_option maxRecDepth 20000 in
/-- C4 (corrected): `detect_range` succeeds exactly when the history holds
at least `lookbackPeriods = 50` candles (not 20) and the 50-candle window
has widthPct < 2.0 — the `≥ 20` minimum is subsumed by the 50-candle
guard.  The Scenario B run accordingly needs 50 confined candles, after
which the high-103 candle drives CONSOLIDATION → BREAKOUT_UP and the
candle closing at 100.5 yields the immediate up_failure event. -/
theorem C4_range_detection (hist : List Candle) :
    ((detect_range hist 50 20).isSome = true ↔
      (50 ≤ hist.length ∧ rangeWidthPct (pyLastN 50 hist) < 2)) ∧
    (bfPhase (bf_run "I" bfEmpty c4Seq51) = BreakoutPhase.BREAKOUT_UP ∧
     ((process_candle "I" (bf_run "I" bfEmpty c4Seq51) c4Fail).1.map
        BreakoutFailureAlert.direction) = some "up_failure") := by
  constructor
  · unfold detect_range
    by_cases h1 : hist.length < 50
    · rw [if_pos h1]
      simp only [Option.isSome_none, Bool.false_eq_true, false_iff, not_and]
      intro h
      omega
    · rw [if_neg h1]
      dsimp only
      have h50 : 50 ≤ (pyLastN 50 hist).length :=
        (pyLastN_le_length_iff 50 hist).mpr (by omega)
      by_cases h2 : rangeWidthPct (pyLastN 50 hist) < 2
      · rw [if_pos ⟨h2, by omega⟩]
        simp only [Option.isSome_some, true_iff]
        exact ⟨by omega, h2⟩
      · rw [if_neg (by intro h; exact h2 h.1)]
        simp only [Option.isSome_none, Bool.false_eq_true, false_iff, not_and]
        intro h
        exact h2
  · exact ⟨by decide, by decide⟩

unseal Rat.add Rat.mul Rat.inv Rat.sub Rat.ofScientific in
set_option maxRecDepth 20000 in
/-- C4 counterexample: 25 candles confined to `[100, 101.8]` satisfy the
claimed premise (widthPct < 2, at least 20 candles) yet `detect_range`
produces no RangeLevel, because it requires 50 candles of history. -/
theorem C4_counterexample :
    20 ≤ (List.replicate 25 c4Tight).length ∧
    rangeWidthPct (List.replicate 25 c4Tight) < 2 ∧
    detect_range (List.replicate 25 c4Tight) 50 20 = none := by
  refine ⟨by decide, by decide, by decide⟩

/-! ### Claims C5 and C6 -/

theorem detect_momentum_none (st : MomentumState) (bi : String)
    (oh : List Candle) (bt : ℚ) (lb : ℕ)
    (h : (momentumGreens oh bt lb).length < 2) :
    detect_momentum_in_opposite_side st bi oh bt lb = none := by
  unfold momentumGreens at h
  unfold detect_momentum_in_opposite_side
  dsimp only
  repeat' split
  all_goals first
  | rfl
  | omega

/-- C6 (confirmed): every MomentumLevel returned by
`detect_momentum_in_opposite_side` counts at least 2 corroborating
candles, its count is exactly the number of green candles (close > open)
among the opposite-leg candles with timestamp ≥ breakdownTime and within
the lookback window, and its entry price is the arithmetic mean of those
green candles' lows. -/
theorem C6_momentum_entry_fields (st : MomentumState) (bi : String)
    (oh : List Candle) (bt : ℚ) (lb : ℕ) (m : MomentumLevel)
    (h : detect_momentum_in_opposite_side st bi oh bt lb = some m) :
    2 ≤ m.red_candles_count ∧
    m.red_candles_count = (momentumGreens oh bt lb).length ∧
    m.entry_point = ((momentumGreens oh bt lb).map Candle.low).sum /
      ((momentumGreens oh bt lb).length : ℚ) := by
  unfold detect_momentum_in_opposite_side at h
  dsimp only at h
  split at h
  · exact Option.noConfusion h
  · split at h
    · exact Option.noConfusion h
    · split at h
      · exact Option.noConfusion h
      · rename_i hlen2
        injection h with hm
        subst hm
        refine ⟨?_, ?_, ?_⟩
        · simp only [momentumGreens]
          omega
        · rfl
        · simp [momentumGreens]

/-- Green candle (low 50) inside the momentum window. -/
def mg1 : Candle :=
  { ts := 60, open_ := 49, high := 53, low := 50, close := 51, volume := 1 }

/-- Red candle inside the momentum window (excluded from the mean). -/
def mgRed : Candle :=
  { ts := 120, open_ := 50, high := 51, low := 10, close := 49, volume := 1 }

/-- Green candle (low 52) inside the momentum window. -/
def mg2 : Candle :=
  { ts := 180, open_ := 50, high := 55, low := 52, close := 53, volume := 1 }

/-- Scenario C history: 3 candles after the breakdown time, 2 green. -/
def c6Hist : List Candle := [mg1, mgRed, mg2]

/-- The MomentumLevel the detector computes on the Scenario C history. -/
def c6Level : MomentumLevel :=
  { asset := "PE", strike := 26200, breakdown_level := 0,
    momentum_candles := [mg1, mg2], entry_point := 51, entry_time := 180,
    red_candles_count := 2 }

unseal Rat.add Rat.mul Rat.inv Rat.sub Rat.ofScientific in
set_option maxRecDepth 20000 in
/-- C6 witness: Scenario C — 2 green candles with lows 50 and 52 give
entryPrice 51.0 and corroboratingCandleCount 2. -/
theorem C6_witness :
    detect_momentum_in_opposite_side momEmpty "NIFTY 26200 CE" c6Hist 0 5 =
      some c6Level ∧
    (2 ≤ c6Level.red_candles_count ∧
     c6Level.red_candles_count = (momentumGreens c6Hist 0 5).length ∧
     c6Level.entry_point = ((momentumGreens c6Hist 0 5).map Candle.low).sum /
       ((momentumGreens c6Hist 0 5).length : ℚ)) :=
  ⟨by decide,
    C6_momentum_entry_fields momEmpty "NIFTY 26200 CE" c6Hist 0 5 c6Level
      (by decide)⟩

/-- C5 (corrected): the number of confirming (red) candles does not gate
`calculate_entry_point` — with an empty confirming list the call raises
(IndexError on `red_candles[0]`), and with exactly one confirming candle
an entry can still be returned.  What does hold: whenever at least one
confirming candle is supplied and the opposite-leg history holds fewer
than 2 green candles inside the lookback window after the breakdown time,
the call returns no entry and raises no error; and `mark_breakdown_level`
with fewer than 2 candles returns without any effect on stored state. -/
theorem C5_insufficient_data (st : MomentumState) (bi : String)
    (oh : List Candle) (bt : ℚ) (bp : ℚ) (reds : List Candle) :
    (reds ≠ [] → (momentumGreens oh bt 5).length < 2 →
      ∃ st2, calculate_entry_point st bi oh bt reds = .ok (none, st2)) ∧
    (reds.length < 2 → mark_breakdown_level st bi bp reds = st) := by
  constructor
  · intro hne hlt
    cases reds with
    | nil => exact absurd rfl hne
    | cons r0 rest =>
      refine ⟨mark_breakdown_level st bi r0.close (r0 :: rest), ?_⟩
      unfold calculate_entry_point
      dsimp only
      rw [detect_momentum_none _ _ _ _ _ hlt]
  · intro hlt
    unfold mark_breakdown_level
    rw [if_pos hlt]

unseal Rat.add Rat.mul Rat.inv Rat.sub Rat.ofScientific in
set_option maxRecDepth 20000 in
/-- C5 counterexample: a call with a single confirming candle (fewer than
2) still returns an entry, because the red-candle count never gates the
result. -/
theorem C5_counterexample :
    ([mgRed] : List Candle).length < 2 ∧
    (entryOf (calculate_entry_point momEmpty "NIFTY 26200 CE" c6Hist 0
      [mgRed])).isSome = true := by
  refine ⟨by decide, by decide⟩

unseal Rat.add Rat.mul Rat.inv Rat.sub Rat.ofScientific in
set_option maxRecDepth 20000 in
/-- C5 witness: the amended statement instantiated at a one-candle
opposite history (no 2 green candles in window) and a single confirming
candle. -/
theorem C5_witness :
    (([mgRed] : List Candle) ≠ [] ∧ (momentumGreens [mg1] 0 5).length < 2 ∧
      ([mg1] : List Candle).length < 2) ∧
    entryOf (calculate_entry_point momEmpty "X 1 CE" [mg1] 0 [mgRed]) = none ∧
    mark_breakdown_level momEmpty "X 1 CE" 5 [mg1] = momEmpty := by
  refine ⟨⟨by decide, by decide, by decide⟩, ?_, ?_⟩
  · obtain ⟨st2, hst2⟩ :=
      (C5_insufficient_data momEmpty "X 1 CE" [mg1] 0 5 [mgRed]).1
        (by decide) (by decide)
    rw [entryOf, hst2]
    rfl
  · exact (C5_insufficient_data momEmpty "X 1 CE" [mg1] 0 5 [mg1]).2 (by decide)

/-! ### Claim C7 -/

/-- C7 (confirmed): for every instrument and ingestion volume, the
breakdown detector's stored history is exactly the most recent suffix of
the ingested candles capped at 100 entries, and the breakout-failure
detector's history the most recent suffix capped at 200 — so the caps are
never exceeded and the oldest candles are evicted first. -/
theorem C7_history_caps (i : String) (sl : List SupportLevel)
    (input : List (Candle × ℚ)) (cs : List Candle) :
    ((input.foldl (bd_step i) ⟨sl, []⟩).history =
        (input.map Prod.fst).drop (input.length - 100) ∧
      (input.foldl (bd_step i) ⟨sl, []⟩).history.length ≤ 100) ∧
    ((bf_run i bfEmpty cs).history = cs.drop (cs.length - 200) ∧
      (bf_run i bfEmpty cs).history.length ≤ 200) := by
  refine ⟨⟨bd_run_history i sl input, ?_⟩, bf_run_history i cs, ?_⟩
  · rw [bd_run_history]
    simp only [List.length_drop, List.length_map]
    omega
  · rw [bf_run_history]
    simp only [List.length_drop]
    omega

/-! ### Claim C8 -/

theorem update_price_erase (i : String) (st : BDState) (c : Candle)
    (t t' : ℚ) :
    ((update_price i st c t).1).map eraseBDTime =
      ((update_price i st c t').1).map eraseBDTime := by
  unfold update_price
  dsimp only
  apply findSome?_map_congr
  intro s
  by_cases ha : s.is_active = true
  · rw [if_pos ha, if_pos ha]
    exact check_breakdown_erase i (pyTrim 100 (st.history ++ [c])) s c t t'
  · rw [if_neg ha, if_neg ha]

/-- C8 (corrected): replaying the identical candle sequence yields event
streams that agree on every candle-derived field — the runs coincide after
scrubbing the `breakdown_time` field, which is stamped from the wall clock
(`datetime.now()`) and therefore differs between two real replays.  Full
field-for-field equality holds only when the clock readings coincide. -/
theorem C8_replay_determinism (i : String) (st : BDState) (cs : List Candle)
    (clk1 clk2 : List ℚ) (h1 : clk1.length = cs.length)
    (h2 : clk2.length = cs.length) :
    (bd_events i st (cs.zip clk1)).map (Option.map eraseBDTime) =
      (bd_events i st (cs.zip clk2)).map (Option.map eraseBDTime) := by
  induction cs generalizing st clk1 clk2 with
  | nil =>
    cases clk1 <;> cases clk2 <;> rfl
  | cons c cr ih =>
    cases clk1 with
    | nil => simp at h1
    | cons t1 tr1 =>
      cases clk2 with
      | nil => simp at h2
      | cons t2 tr2 =>
        simp only [List.zip_cons_cons, bd_events, List.map_cons]
        congr 1
        · exact update_price_erase i st c t1 t2
        · exact ih (bd_step i st (c, t1)) tr1 tr2
            (by simpa using h1) (by simpa using h2)

/-- Support level that confirms on a single candle (`consolidationPeriods
= 1`), used by the C8 runs. -/
def sl1 : SupportLevel :=
  { price := 100, tolerance := 0, min_touches := 2, consolidation_periods := 1,
    is_active := true }

/-- Breakdown-detector state holding `sl1` and no history. -/
def c8State : BDState := { supportLevels := [sl1], history := [] }

/-- A candle closing below the support level 100. -/
def c8Candle : Candle :=
  { ts := 0, open_ := 100, high := 100, low := 99, close := 99, volume := 1 }

unseal Rat.add Rat.mul Rat.inv Rat.sub Rat.ofScientific in
set_option maxRecDepth 20000 in
/-- C8 counterexample: two runs over the identical candle sequence but
observed at different wall-clock instants emit different event sequences
(the alerts differ in their `breakdown_time` field). -/
theorem C8_counterexample :
    ([(c8Candle, (1 : ℚ))].map Prod.fst = [(c8Candle, (2 : ℚ))].map Prod.fst) ∧
    bd_events "I" c8State [(c8Candle, 1)] ≠ bd_events "I" c8State [(c8Candle, 2)] := by
  refine ⟨rfl, by decide⟩

/-- C8 witness: the amended (clock-scrubbed) replay equality at a concrete
one-candle run with two different clocks. -/
theorem C8_witness :
    (([(1 : ℚ)] : List ℚ).length = ([c8Candle] : List Candle).length ∧
     ([(2 : ℚ)] : List ℚ).length = ([c8Candle] : List Candle).length) ∧
    (bd_events "I" c8State ([c8Candle].zip [(1 : ℚ)])).map
        (Option.map eraseBDTime) =
      (bd_events "I" c8State ([c8Candle].zip [(2 : ℚ)])).map
        (Option.map eraseBDTime) :=
  ⟨⟨rfl, rfl⟩, C8_replay_determinism "I" c8State [c8Candle] [1] [2] rfl rfl⟩

/-! ### Claim C9 -/

/-- C9 (corrected): the swing low/high are recomputed over the most recent
30 stored candles (min-by-low / max-by-high, ties to the first occurrence
via `pyMinBy`/`pyMaxBy`) exactly when the stored, trimmed history length
exceeds 30 and is a multiple of 10.  Because the length is what is tested
— not a processed-candle counter — and the history is capped at 200, the
length saturates at 200 and the recomputation then fires on every
subsequent candle, and at exactly 30 stored candles (a 10th multiple with
30 candles existing) no recomputation happens. -/
theorem C9_swing_recompute (i : String) (st : BFState) (c : Candle) :
    ((process_candle i st c).2.swingLow.map fun sw => (sw.price, sw.time)) =
      (if (pyTrim 200 (st.history ++ [c])).length > 30 ∧
          (pyTrim 200 (st.history ++ [c])).length % 10 = 0 then
        (pyMinBy Candle.low (pyLastN 30 (pyTrim 200 (st.history ++ [c])))).map
          fun cd => (cd.low, cd.ts)
      else st.swingLow.map fun sw => (sw.price, sw.time)) ∧
    ((process_candle i st c).2.swingHigh.map fun sw => (sw.price, sw.time)) =
      (if (pyTrim 200 (st.history ++ [c])).length > 30 ∧
          (pyTrim 200 (st.history ++ [c])).length % 10 = 0 then
        (pyMaxBy Candle.high (pyLastN 30 (pyTrim 200 (st.history ++ [c])))).map
          fun cd => (cd.high, cd.ts)
      else st.swingHigh.map fun sw => (sw.price, sw.time)) :=
  process_candle_swing_proj i st c

/-- A wide candle (low 90, high 110) that never forms a range. -/
def w0c : Candle :=
  { ts := 0, open_ := 100, high := 110, low := 90, close := 100, volume := 1 }

/-- The 201st candle, carrying a fresh minimal low 5. -/
def w201c : Candle :=
  { ts := 201, open_ := 100, high := 110, low := 5, close := 100, volume := 1 }

/-- The 202nd candle, carrying a fresh minimal low 3. -/
def w202c : Candle :=
  { ts := 202, open_ := 100, high := 110, low := 3, close := 100, volume := 1 }

/-- The detector state after 200 identical wide candles. -/
def c9s200 : BFState := bf_run "I" bfEmpty (List.replicate 200 w0c)

/-- The state after the 201st candle. -/
def c9s201 : BFState := bf_step "I" c9s200 w201c

/-- The state after the 202nd candle. -/
def c9s202 : BFState := bf_step "I" c9s201 w202c

set_option maxRecDepth 100000 in
/-- C9 counterexample: once the history is saturated at 200 candles, the
swing low is recomputed on the 201st processed candle AND again on the
202nd — two consecutive candles, neither a 10th processed candle —
refuting "only on every 10th processed candle, never on every candle". -/
theorem C9_counterexample :
    (c9s201.swingLow.map fun sw => (sw.price, sw.time)) = some (5, 201) ∧
    (c9s202.swingLow.map fun sw => (sw.price, sw.time)) = some (3, 202) := by
  have hh200 : c9s200.history = List.replicate 200 w0c := by
    unfold c9s200
    rw [bf_run_history]
    simp
  have hh201 : c9s201.history = pyTrim 200 (List.replicate 200 w0c ++ [w201c]) := by
    unfold c9s201 bf_step
    rw [process_candle_history, hh200]
  constructor
  · have hproj := (process_candle_swing_proj "I" c9s200 w201c).1
    rw [hh200] at hproj
    unfold c9s201 bf_step
    rw [hproj]
    decide
  · have hproj := (process_candle_swing_proj "I" c9s201 w202c).1
    rw [hh201] at hproj
    unfold c9s202 bf_step
    rw [hproj]
    decide

/-! ### Claim C10 -/

/-- C10 (corrected): stopping monitoring pops the instrument's phase,
range level and breakout price (breakout-failure route) or merely
deactivates its support levels (breakdown route), but in BOTH routes the
instrument's candle history is left in place — a subsequent start resumes
with the previous history, not an empty one.  Stopping an instrument with
no registered state answers not-found without modifying any state, so
every other instrument is untouched in all cases. -/
theorem C10_stop_monitoring_effect (bfS : BFRouteState) (bdS : BDRouteState)
    (i : String) :
    (((bfS.current_phase i).isSome = true →
        (bf_stop_monitoring bfS i).1 = StopResult.stopped ∧
        (bf_stop_monitoring bfS i).2.current_phase i = none ∧
        (bf_stop_monitoring bfS i).2.range_levels i = none ∧
        (bf_stop_monitoring bfS i).2.breakout_prices i = none ∧
        (bf_stop_monitoring bfS i).2.price_history = bfS.price_history ∧
        (bf_stop_monitoring bfS i).2.swing_lows = bfS.swing_lows ∧
        (bf_stop_monitoring bfS i).2.failure_history = bfS.failure_history ∧
        (∀ j, j ≠ i →
          (bf_stop_monitoring bfS i).2.current_phase j = bfS.current_phase j ∧
          (bf_stop_monitoring bfS i).2.range_levels j = bfS.range_levels j ∧
          (bf_stop_monitoring bfS i).2.breakout_prices j =
            bfS.breakout_prices j)) ∧
      ((bfS.current_phase i).isSome = false →
        bf_stop_monitoring bfS i = (StopResult.notFound, bfS))) ∧
    ((∀ levels, bdS.support_levels i = some levels →
        (bd_stop_monitoring bdS i).1 = StopResult.stopped ∧
        (bd_stop_monitoring bdS i).2.support_levels i =
          some (levels.map fun s => { s with is_active := false }) ∧
        (bd_stop_monitoring bdS i).2.price_history = bdS.price_history ∧
        (bd_stop_monitoring bdS i).2.breakdown_history = bdS.breakdown_history ∧
        (∀ j, j ≠ i → (bd_stop_monitoring bdS i).2.support_levels j =
          bdS.support_levels j)) ∧
      (bdS.support_levels i = none →
        bd_stop_monitoring bdS i = (StopResult.notFound, bdS))) := by
  refine ⟨⟨?_, ?_⟩, ?_, ?_⟩
  · intro hin
    unfold bf_stop_monitoring
    rw [if_pos hin]
    refine ⟨rfl, by simp, by simp, by simp, rfl, rfl, rfl, ?_⟩
    intro j hj
    exact ⟨by simp [hj], by simp [hj], by simp [hj]⟩
  · intro hout
    unfold bf_stop_monitoring
    rw [if_neg (by simp [hout])]
  · intro levels hlev
    unfold bd_stop_monitoring
    rw [hlev]
    refine ⟨rfl, by simp, rfl, rfl, ?_⟩
    intro j hj
    simp [hj]
  · intro hnone
    unfold bd_stop_monitoring
    rw [hnone]

/-- Breakout-failure route state monitoring instrument "X" with one stored
candle of history. -/
def c10bfState : BFRouteState :=
  { range_levels := fun _ => none, swing_lows := fun _ => none,
    swing_highs := fun _ => none,
    breakout_prices := fun k => if k = "X" then some 102 else none,
    breakout_direction := fun _ => none,
    price_history := fun k =>
      if k = "X" then [{ ts := 0, open_ := 1, high := 1, low := 1, close := 1,
                         volume := 1 }] else [],
    failure_history := fun _ => [],
    current_phase := fun k =>
      if k = "X" then some BreakoutPhase.BREAKOUT_UP else none }

/-- Breakdown route state monitoring instrument "X" with one stored candle
of history. -/
def c10bdState : BDRouteState :=
  { support_levels := fun k =>
      if k = "X" then some [{ price := 100, tolerance := 1, min_touches := 2,
                              consolidation_periods := 5, is_active := true }]
      else none,
    price_history := fun k =>
      if k = "X" then [{ ts := 0, open_ := 1, high := 1, low := 1, close := 1,
                         volume := 1 }] else [],
    breakdown_history := fun _ => [] }

/-- C10 counterexample: stopping instrument "X" reports stopped but leaves
its candle history nonempty, so a subsequent start does NOT begin from
empty history. -/
theorem C10_counterexample :
    (c10bfState.current_phase "X").isSome = true ∧
    (bf_stop_monitoring c10bfState "X").1 = StopResult.stopped ∧
    (bf_stop_monitoring c10bfState "X").2.price_history "X" ≠ [] := by
  refine ⟨by decide, by decide, by decide⟩

/-- C10 witness: the amended statement at the concrete route states. -/
theorem C10_witness :
    ((c10bfState.current_phase "X").isSome = true ∧
     c10bdState.support_levels "X" =
       some [{ price := 100, tolerance := 1, min_touches := 2,
               consolidation_periods := 5, is_active := true }]) ∧
    ((bf_stop_monitoring c10bfState "X").1 = StopResult.stopped ∧
     (bf_stop_monitoring c10bfState "X").2.range_levels "X" = none ∧
     (bf_stop_monitoring c10bfState "X").2.price_history =
       c10bfState.price_history) ∧
    (bd_stop_monitoring c10bdState "X").2.price_history =
      c10bdState.price_history := by
  have hbf := (C10_stop_monitoring_effect c10bfState c10bdState "X").1.1
    (by decide)
  have hbd := (C10_stop_monitoring_effect c10bfState c10bdState "X").2.1
    [{ price := 100, tolerance := 1, min_touches := 2,
       consolidation_periods := 5, is_active := true }] (by decide)
  exact ⟨⟨by decide, by decide⟩, ⟨hbf.1, hbf.2.2.1, hbf.2.2.2.2.1⟩,
    hbd.2.2.1⟩
